import Mathlib

/-!
Shallow embedding of the authorization and session-token subsystem of the
grist-mcp-server repository (src/grist_mcp/{auth,session,proxy,config,main}.py
and src/grist_mcp/tools/session.py).

Conventions of the embedding:
* Python values appearing in JSON request bodies are modelled by the
  inductive `Value`; Python `None` (also the image of JSON `null`) is
  `Value.null`, so `dict.get(key)` returning `None` for an absent key is
  modelled by `Body.get` returning `Value.null`.
* Time (`datetime.now(timezone.utc)`) is modelled as an integer number of
  seconds on an abstract timeline; `timedelta(seconds = n)` is addition.
* Randomness (`secrets.token_urlsafe(32)`) and the current time are passed
  as explicit arguments to the operations that consume them.
* Python exceptions are modelled with `Except`: `AuthError`/`ProxyError`
  values carry the message (and code) strings of the source; an arbitrary
  non-`ProxyError` exception raised by the upstream client is modelled as
  `Except.error msg` in the client's result type.
* Python `dict` is modelled as an association list with insertion
  semantics `pyDictInsert` (replace the existing key in place, else append),
  looked up by first match; dict-comprehension construction is a fold of
  `pyDictInsert`, so a later entry with the same key overwrites an earlier
  one exactly as in CPython.
* The upstream `GristClient` is the injected dependency of
  `dispatch_proxy_request`; it is modelled as a record of result-valued
  fields (one per operation).  The dispatcher additionally returns the
  list of upstream calls it performed, with the argument values it passed,
  so that "forwards to the upstream client with these arguments" and
  "no upstream call occurred" are statable.  (When the Python code is
  handed `client=None` it builds a real HTTP client from the document
  registry; that construction is outside the pure model, so the model
  takes the injected client.)
* Unhashable method values (JSON arrays/objects used as `method`) would
  raise `TypeError` out of the Python dict/set membership tests; the model
  does not cover that corner, and no theorem quantifies over it.
-/

namespace GristMcp

/-- JSON-like Python values occurring in proxy request bodies.
`null` stands for Python `None`. -/
inductive Value where
  | null
  | bool (b : Bool)
  | int (n : Int)
  | str (s : String)
  | list (xs : List Value)
  | obj (kvs : List (String × Value))
deriving Repr

/-- Python `v == "s"` for a string literal: true only for an equal string
value (Python equality between a non-`str` value and a `str` is `False`). -/
def Value.isStr (v : Value) (s : String) : Bool :=
  match v with
  | .str t => t == s
  | _ => false

mutual

/-- Python `repr` of a value (used by f-string interpolation of containers). -/
def Value.pyRepr : Value → String
  | .null => "None"
  | .bool true => "True"
  | .bool false => "False"
  | .int n => toString n
  | .str s => "\x27" ++ s ++ "\x27"
  | .list xs => "[" ++ String.intercalate ", " (Value.pyReprList xs) ++ "]"
  | .obj kvs => "\x7b" ++ String.intercalate ", " (Value.pyReprObj kvs) ++ "\x7d"

/-- `repr` of each element of a list value. -/
def Value.pyReprList : List Value → List String
  | [] => []
  | v :: vs => v.pyRepr :: Value.pyReprList vs

/-- `repr` of each key/value pair of a dict value. -/
def Value.pyReprObj : List (String × Value) → List String
  | [] => []
  | (k, v) :: kvs => ("\x27" ++ k ++ "\x27: " ++ v.pyRepr) :: Value.pyReprObj kvs

end

/-- Python `str` of a value, as used by f-string interpolation. -/
def Value.pyStr : Value → String
  | .str s => s
  | v => v.pyRepr

/-- Python type name, as used in `TypeError` messages of `len`. -/
def Value.pyType : Value → String
  | .null => "NoneType"
  | .bool _ => "bool"
  | .int _ => "int"
  | .str _ => "str"
  | .list _ => "list"
  | .obj _ => "dict"

/-- Python `len(v)`: defined on sized values, `TypeError` otherwise. -/
def Value.pyLen : Value → Except String Nat
  | .str s => .ok s.length
  | .list xs => .ok xs.length
  | .obj kvs => .ok kvs.length
  | v => .error ("object of type \x27" ++ v.pyType ++ "\x27 has no len()")

/-- A JSON object / Python dict body (keys unique in practice). -/
abbrev Body := List (String × Value)

/-- Python `key in body`. -/
def Body.hasKey (body : Body) (key : String) : Bool :=
  body.any (fun kv => kv.1 == key)

/-- Python `body.get(key)`: value of the first entry with that key, or
Python `None` when absent. -/
def Body.get (body : Body) (key : String) : Value :=
  match body.find? (fun kv => kv.1 == key) with
  | some kv => kv.2
  | none => .null

/-- CPython dict insertion on an association list: replace in place if the
key is present, else append at the end. -/
def pyDictInsert {α : Type} (m : List (String × α)) (k : String) (v : α) :
    List (String × α) :=
  if m.any (fun kv => kv.1 == k) then
    m.map (fun kv => if kv.1 == k then (k, v) else kv)
  else
    m ++ [(k, v)]

/-- Dict lookup: first entry with the key (keys are unique after
`pyDictInsert`-construction). -/
def pyDictGet {α : Type} (m : List (String × α)) (k : String) : Option α :=
  (m.find? (fun kv => kv.1 == k)).map Prod.snd

/-! ## Configuration data model (config.py) -/

/-- `config.Document`: upstream connection parameters. -/
structure Document where
  url : String
  doc_id : String
  api_key : String
deriving Repr, DecidableEq

/-- `config.TokenScope`: access scope for a single document. -/
structure TokenScope where
  document : String
  permissions : List String
deriving Repr, DecidableEq

/-- `config.Token`: an agent token with its access scopes. -/
structure Token where
  token : String
  name : String
  scope : List TokenScope
deriving Repr, DecidableEq

/-- `config.Config`: full server configuration. -/
structure Config where
  documents : List (String × Document)
  tokens : List Token
deriving Repr, DecidableEq

/-! ## Authentication and authorization (auth.py) -/

/-- `auth.Permission`: document permission levels. -/
inductive Permission where
  | read
  | write
  | schema
deriving Repr, DecidableEq

/-- `Permission.value`: the string value of the enum member. -/
def Permission.value : Permission → String
  | .read => "read"
  | .write => "write"
  | .schema => "schema"

/-- Python `Permission(s)`: enum lookup by value; `none` models the
`ValueError` raised on an unrecognized string. -/
def Permission.ofString (s : String) : Option Permission :=
  if s = "read" then some .read
  else if s = "write" then some .write
  else if s = "schema" then some .schema
  else none

/-- `auth.AuthError`: authentication or authorization error (carries the
message string of the raised exception). -/
structure AuthError where
  message : String
deriving Repr, DecidableEq

/-- `auth.Agent`: an authenticated agent.  The source calls the third
field `_token_obj`. -/
structure Agent where
  token : String
  name : String
  token_obj : Token
deriving Repr, DecidableEq

/-- `auth.Authenticator`: the config together with the token map built by
`__init__` (`\x7bt.token: t for t in config.tokens\x7d`). -/
structure Authenticator where
  config : Config
  token_map : List (String × Token)
deriving Repr, DecidableEq

/-- `Authenticator.__init__`: build the token map by dict comprehension
over `config.tokens` (later duplicate token strings overwrite earlier). -/
def Authenticator.ofConfig (config : Config) : Authenticator :=
  { config := config
    token_map := config.tokens.foldl (fun m t => pyDictInsert m t.token t) [] }

/-- `Authenticator.authenticate`: validate token and return Agent. -/
def Authenticator.authenticate (auth : Authenticator) (token : String) :
    Except AuthError Agent :=
  match pyDictGet auth.token_map token with
  | none => .error ⟨"Invalid token"⟩
  | some token_obj => .ok ⟨token, token_obj.name, token_obj⟩

/-- `Authenticator.authorize`: check if agent has permission on document.
The `for`/`break` scan over scope entries is first-match. -/
def Authenticator.authorize (_auth : Authenticator) (agent : Agent)
    (document : String) (permission : Permission) : Except AuthError Unit :=
  match agent.token_obj.scope.find? (fun s => s.document == document) with
  | none => .error ⟨"Document not in scope"⟩
  | some scope_entry =>
      if scope_entry.permissions.contains permission.value then
        .ok ()
      else
        .error ⟨"Permission denied"⟩

/-- `Authenticator.get_document`: resolve a document name. -/
def Authenticator.get_document (auth : Authenticator) (document_name : String) :
    Except AuthError Document :=
  match pyDictGet auth.config.documents document_name with
  | none => .error ⟨"Document \x27" ++ document_name ++ "\x27 not configured"⟩
  | some doc => .ok doc

/-! ## Session token management (session.py) -/

/-- `session.MAX_TTL_SECONDS` (1 hour). -/
def MAX_TTL_SECONDS : Int := 3600

/-- `session.DEFAULT_TTL_SECONDS` (5 minutes). -/
def DEFAULT_TTL_SECONDS : Int := 300

/-- `session.SessionToken`: a short-lived session token for proxy access.
Timestamps are integer seconds on the model's timeline. -/
structure SessionToken where
  token : String
  document : String
  permissions : List String
  agent_name : String
  created_at : Int
  expires_at : Int
deriving Repr, DecidableEq

/-- `session.SessionTokenManager`: the in-memory token map `_tokens`. -/
structure SessionTokenManager where
  tokens : List (String × SessionToken)
deriving Repr, DecidableEq

/-- `SessionTokenManager.create_token`: create a new session token.  The
current time `now` and the random part of the token string are explicit
arguments; TTL is capped at `MAX_TTL_SECONDS`, defaulting to
`DEFAULT_TTL_SECONDS`.  Returns the token and the updated manager. -/
def SessionTokenManager.create_token (mgr : SessionTokenManager)
    (agent_name : String) (document : String) (permissions : List String)
    (now : Int) (randomPart : String)
    (ttl_seconds : Int := DEFAULT_TTL_SECONDS) :
    SessionToken × SessionTokenManager :=
  let token_str := "sess_" ++ randomPart
  let effective_ttl := min ttl_seconds MAX_TTL_SECONDS
  let session : SessionToken :=
    { token := token_str
      document := document
      permissions := permissions
      agent_name := agent_name
      created_at := now
      expires_at := now + effective_ttl }
  (session, ⟨pyDictInsert mgr.tokens token_str session⟩)

/-- Modelled from the spec: `SessionTokenManager.validate_token` is called
from `main.py` (`handle_proxy`, `handle_attachments`,
`handle_attachment_download`) but no definition of it appears in
`session.py` in the source tree.  Per the spec (§4.3), it looks up the
token string in the in-memory map and returns the stored `SessionToken`
only when its `expires_at` has not passed; an expired token is treated as
invalid (returns `none`) even though its entry may still be physically
present in the map, and validation never throws. -/
def SessionTokenManager.validate_token (mgr : SessionTokenManager)
    (token : String) (now : Int) : Option SessionToken :=
  match pyDictGet mgr.tokens token with
  | none => none
  | some session => if session.expires_at ≤ now then none else some session

/-! ## Proxy request parsing and dispatch (proxy.py) -/

/-- `proxy.ProxyError`: error during proxy request processing. -/
structure ProxyError where
  message : String
  code : String
deriving Repr, DecidableEq

/-- `proxy.ProxyRequest`: parsed proxy request.  Fields hold the raw body
values; `Value.null` is the Python `None` default. -/
structure ProxyRequest where
  method : Value
  table : Value := .null
  records : Value := .null
  record_ids : Value := .null
  filter : Value := .null
  sort : Value := .null
  limit : Value := .null
  query : Value := .null
  table_id : Value := .null
  columns : Value := .null
  column_id : Value := .null
  column_type : Value := .null
  formula : Value := .null
  type : Value := .null
deriving Repr

/-- Python `v is None`. -/
def Value.isNone : Value → Bool
  | .null => true
  | _ => false

/-- `proxy.METHODS_REQUIRING_TABLE`. -/
def METHODS_REQUIRING_TABLE : List String :=
  ["get_records", "describe_table", "add_records", "update_records",
   "delete_records", "add_column", "modify_column", "delete_column"]

/-- Python `method in METHODS_REQUIRING_TABLE` (set of strings: false for
any hashable non-string value). -/
def methodRequiresTable (method : Value) : Bool :=
  match method with
  | .str s => METHODS_REQUIRING_TABLE.contains s
  | _ => false

/-- `proxy.parse_proxy_request`: parse and validate a proxy request body. -/
def parse_proxy_request (body : Body) : Except ProxyError ProxyRequest :=
  if ¬ Body.hasKey body "method" then
    .error ⟨"Missing required field: method", "INVALID_REQUEST"⟩
  else
    let method := Body.get body "method"
    if methodRequiresTable method ∧ ¬ Body.hasKey body "table" then
      .error ⟨"Missing required field \x27table\x27 for method \x27" ++
              method.pyStr ++ "\x27", "INVALID_REQUEST"⟩
    else
      .ok { method := method
            table := Body.get body "table"
            records := Body.get body "records"
            record_ids := Body.get body "record_ids"
            filter := Body.get body "filter"
            sort := Body.get body "sort"
            limit := Body.get body "limit"
            query := Body.get body "query"
            table_id := Body.get body "table_id"
            columns := Body.get body "columns"
            column_id := Body.get body "column_id"
            column_type := Body.get body "column_type"
            formula := Body.get body "formula"
            type := Body.get body "type" }

/-- `proxy.METHOD_PERMISSIONS`: map methods to required permissions. -/
def METHOD_PERMISSIONS : List (String × String) :=
  [("list_tables", "read"),
   ("describe_table", "read"),
   ("get_records", "read"),
   ("sql_query", "read"),
   ("add_records", "write"),
   ("update_records", "write"),
   ("delete_records", "write"),
   ("create_table", "schema"),
   ("add_column", "schema"),
   ("modify_column", "schema"),
   ("delete_column", "schema")]

/-- Python `METHOD_PERMISSIONS.get(request.method)` (a non-string hashable
method is not a key, hence `None`). -/
def methodPermission (method : Value) : Option String :=
  match method with
  | .str s => pyDictGet METHOD_PERMISSIONS s
  | _ => none

/-- The injected upstream client (`grist_client.GristClient` as used by
the dispatcher): one result-valued field per operation, taking the raw
request values the dispatcher passes through.  `Except.error msg` models
an arbitrary exception raised by the upstream call. -/
structure GristClient where
  list_tables : Except String Value
  describe_table : Value → Except String Value
  get_records : Value → Value → Value → Value → Except String Value
  sql_query : Value → Except String Value
  add_records : Value → Value → Except String Value
  update_records : Value → Value → Except String Unit
  delete_records : Value → Value → Except String Unit
  create_table : Value → Value → Except String Value
  add_column : Value → Value → Value → Value → Except String Unit
  modify_column : Value → Value → Value → Value → Except String Unit
  delete_column : Value → Value → Except String Unit

/-- One upstream-client invocation, with the argument values passed. -/
inductive ClientCall where
  | list_tables
  | describe_table (table : Value)
  | get_records (table filter sort limit : Value)
  | sql_query (query : Value)
  | add_records (table records : Value)
  | update_records (table records : Value)
  | delete_records (table record_ids : Value)
  | create_table (table_id columns : Value)
  | add_column (table column_id column_type formula : Value)
  | modify_column (table column_id type formula : Value)
  | delete_column (table column_id : Value)
deriving Repr

/-- A Python exception escaping the dispatcher's `try` block: either a
`ProxyError` (re-raised as is) or any other exception with its message. -/
inductive PyExc where
  | proxy (e : ProxyError)
  | generic (msg : String)
deriving Repr

/-- A `\x7b"success": True, "data": \x7b...\x7d\x7d` response value. -/
def successData (kvs : List (String × Value)) : Value :=
  .obj [("success", .bool true), ("data", .obj kvs)]

/-- The `list_tables` arm of the dispatcher's `if`/`elif` chain. -/
def dispatch_case_list_tables (client : GristClient) :
    Except PyExc Value × List ClientCall :=
  match client.list_tables with
  | .ok data => (.ok (successData [("tables", data)]), [.list_tables])
  | .error m => (.error (.generic m), [.list_tables])

/-- The `describe_table` arm of the dispatcher's `if`/`elif` chain. -/
def dispatch_case_describe_table (request : ProxyRequest) (client : GristClient) :
    Except PyExc Value × List ClientCall :=
  match client.describe_table request.table with
  | .ok data =>
      (.ok (successData [("table", request.table), ("columns", data)]),
       [.describe_table request.table])
  | .error m => (.error (.generic m), [.describe_table request.table])

/-- The `get_records` arm of the dispatcher's `if`/`elif` chain. -/
def dispatch_case_get_records (request : ProxyRequest) (client : GristClient) :
    Except PyExc Value × List ClientCall :=
  match client.get_records request.table request.filter request.sort request.limit with
  | .ok data =>
      (.ok (successData [("records", data)]),
       [.get_records request.table request.filter request.sort request.limit])
  | .error m =>
      (.error (.generic m),
       [.get_records request.table request.filter request.sort request.limit])

/-- The `sql_query` arm of the dispatcher's `if`/`elif` chain. -/
def dispatch_case_sql_query (request : ProxyRequest) (client : GristClient) :
    Except PyExc Value × List ClientCall :=
  if request.query.isNone then
    (.error (.proxy ⟨"Missing required field: query", "INVALID_REQUEST"⟩), [])
  else
    match client.sql_query request.query with
    | .ok data => (.ok (successData [("records", data)]), [.sql_query request.query])
    | .error m => (.error (.generic m), [.sql_query request.query])

/-- The `add_records` arm of the dispatcher's `if`/`elif` chain. -/
def dispatch_case_add_records (request : ProxyRequest) (client : GristClient) :
    Except PyExc Value × List ClientCall :=
  if request.records.isNone then
    (.error (.proxy ⟨"Missing required field: records", "INVALID_REQUEST"⟩), [])
  else
    match client.add_records request.table request.records with
    | .ok data =>
        (.ok (successData [("record_ids", data)]),
         [.add_records request.table request.records])
    | .error m => (.error (.generic m), [.add_records request.table request.records])

/-- The `update_records` arm of the dispatcher's `if`/`elif` chain. -/
def dispatch_case_update_records (request : ProxyRequest) (client : GristClient) :
    Except PyExc Value × List ClientCall :=
  if request.records.isNone then
    (.error (.proxy ⟨"Missing required field: records", "INVALID_REQUEST"⟩), [])
  else
    match client.update_records request.table request.records with
    | .ok () =>
        (match request.records.pyLen with
         | .ok n =>
             (.ok (successData [("updated", .int n)]),
              [.update_records request.table request.records])
         | .error m =>
             (.error (.generic m), [.update_records request.table request.records]))
    | .error m => (.error (.generic m), [.update_records request.table request.records])

/-- The `delete_records` arm of the dispatcher's `if`/`elif` chain. -/
def dispatch_case_delete_records (request : ProxyRequest) (client : GristClient) :
    Except PyExc Value × List ClientCall :=
  if request.record_ids.isNone then
    (.error (.proxy ⟨"Missing required field: record_ids", "INVALID_REQUEST"⟩), [])
  else
    match client.delete_records request.table request.record_ids with
    | .ok () =>
        (match request.record_ids.pyLen with
         | .ok n =>
             (.ok (successData [("deleted", .int n)]),
              [.delete_records request.table request.record_ids])
         | .error m =>
             (.error (.generic m), [.delete_records request.table request.record_ids]))
    | .error m =>
        (.error (.generic m), [.delete_records request.table request.record_ids])

/-- The `create_table` arm of the dispatcher's `if`/`elif` chain. -/
def dispatch_case_create_table (request : ProxyRequest) (client : GristClient) :
    Except PyExc Value × List ClientCall :=
  if request.table_id.isNone ∨ request.columns.isNone then
    (.error (.proxy ⟨"Missing required fields: table_id, columns", "INVALID_REQUEST"⟩), [])
  else
    match client.create_table request.table_id request.columns with
    | .ok data =>
        (.ok (successData [("table_id", data)]),
         [.create_table request.table_id request.columns])
    | .error m =>
        (.error (.generic m), [.create_table request.table_id request.columns])

/-- The `add_column` arm of the dispatcher's `if`/`elif` chain. -/
def dispatch_case_add_column (request : ProxyRequest) (client : GristClient) :
    Except PyExc Value × List ClientCall :=
  if request.column_id.isNone ∨ request.column_type.isNone then
    (.error (.proxy ⟨"Missing required fields: column_id, column_type", "INVALID_REQUEST"⟩), [])
  else
    match client.add_column request.table request.column_id request.column_type
        request.formula with
    | .ok () =>
        (.ok (successData [("column_id", request.column_id)]),
         [.add_column request.table request.column_id request.column_type request.formula])
    | .error m =>
        (.error (.generic m),
         [.add_column request.table request.column_id request.column_type request.formula])

/-- The `modify_column` arm of the dispatcher's `if`/`elif` chain. -/
def dispatch_case_modify_column (request : ProxyRequest) (client : GristClient) :
    Except PyExc Value × List ClientCall :=
  if request.column_id.isNone then
    (.error (.proxy ⟨"Missing required field: column_id", "INVALID_REQUEST"⟩), [])
  else
    match client.modify_column request.table request.column_id request.type
        request.formula with
    | .ok () =>
        (.ok (successData [("column_id", request.column_id)]),
         [.modify_column request.table request.column_id request.type request.formula])
    | .error m =>
        (.error (.generic m),
         [.modify_column request.table request.column_id request.type request.formula])

/-- The `delete_column` arm of the dispatcher's `if`/`elif` chain. -/
def dispatch_case_delete_column (request : ProxyRequest) (client : GristClient) :
    Except PyExc Value × List ClientCall :=
  if request.column_id.isNone then
    (.error (.proxy ⟨"Missing required field: column_id", "INVALID_REQUEST"⟩), [])
  else
    match client.delete_column request.table request.column_id with
    | .ok () =>
        (.ok (successData [("deleted", request.column_id)]),
         [.delete_column request.table request.column_id])
    | .error m =>
        (.error (.generic m), [.delete_column request.table request.column_id])

/-- The body of `dispatch_proxy_request`'s `try` block: the `if`/`elif`
chain on `request.method` (one definition per arm above), returning the
response value or the escaping exception, together with the upstream
calls performed. -/
def dispatch_body (request : ProxyRequest) (client : GristClient) :
    Except PyExc Value × List ClientCall :=
  if request.method.isStr "list_tables" then
    dispatch_case_list_tables client
  else if request.method.isStr "describe_table" then
    dispatch_case_describe_table request client
  else if request.method.isStr "get_records" then
    dispatch_case_get_records request client
  else if request.method.isStr "sql_query" then
    dispatch_case_sql_query request client
  else if request.method.isStr "add_records" then
    dispatch_case_add_records request client
  else if request.method.isStr "update_records" then
    dispatch_case_update_records request client
  else if request.method.isStr "delete_records" then
    dispatch_case_delete_records request client
  else if request.method.isStr "create_table" then
    dispatch_case_create_table request client
  else if request.method.isStr "add_column" then
    dispatch_case_add_column request client
  else if request.method.isStr "modify_column" then
    dispatch_case_modify_column request client
  else if request.method.isStr "delete_column" then
    dispatch_case_delete_column request client
  else
    (.error (.proxy ⟨"Unknown method: " ++ request.method.pyStr, "INVALID_REQUEST"⟩), [])

/-- The `try`/`except` wrapper of the dispatcher: `ProxyError` is
re-raised unchanged, any other exception is wrapped as `GRIST_ERROR`. -/
def wrapDispatchExc : Except PyExc Value → Except ProxyError Value
  | .ok v => .ok v
  | .error (.proxy e) => .error e
  | .error (.generic m) => .error ⟨m, "GRIST_ERROR"⟩

/-- `proxy.dispatch_proxy_request`: permission check against the session
token's carried permission list, then dispatch to the injected upstream
client.  `auth` is the `Authenticator` parameter of the source function;
with an injected client it is never consulted. -/
def dispatch_proxy_request (request : ProxyRequest) (session : SessionToken)
    (auth : Authenticator) (client : GristClient) :
    Except ProxyError Value × List ClientCall :=
  match methodPermission request.method with
  | none =>
      (.error ⟨"Unknown method: " ++ request.method.pyStr, "INVALID_REQUEST"⟩, [])
  | some required_perm =>
      if ¬ session.permissions.contains required_perm then
        (.error ⟨"Permission \x27" ++ required_perm ++ "\x27 required for " ++
                 request.method.pyStr, "UNAUTHORIZED"⟩, [])
      else
        let (r, calls) := dispatch_body request client
        (wrapDispatchExc r, calls)

/-! ## Session token issuance tool (tools/session.py) -/

/-- The `for perm_str in permissions` loop of `request_session_token`:
parse each permission string and authorize it, short-circuiting on the
first failure. -/
def check_requested_permissions (auth : Authenticator) (agent : Agent)
    (document : String) : List String → Except AuthError Unit
  | [] => .ok ()
  | perm_str :: rest =>
      match Permission.ofString perm_str with
      | none => .error ⟨"Invalid permission: " ++ perm_str⟩
      | some perm =>
          match auth.authorize agent document perm with
          | .error e => .error e
          | .ok () => check_requested_permissions auth agent document rest

/-- The dictionary returned by `request_session_token`. -/
structure SessionResponse where
  token : String
  document : String
  permissions : List String
  expires_at : Int
  proxy_url : String
deriving Repr, DecidableEq

/-- `tools/session.request_session_token`: check every requested
permission, then create the session token.  The manager state is
returned alongside the result; on failure it is the unchanged input.
`now` and `randomPart` feed `create_token`; `proxy_base_url = some ""`
is falsy in Python, hence treated like `none`. -/
def request_session_token (agent : Agent) (auth : Authenticator)
    (token_manager : SessionTokenManager) (document : String)
    (permissions : List String) (now : Int) (randomPart : String)
    (ttl_seconds : Int := 300) (proxy_base_url : Option String := none) :
    Except AuthError SessionResponse × SessionTokenManager :=
  match check_requested_permissions auth agent document permissions with
  | .error e => (.error e, token_manager)
  | .ok () =>
      let (session, mgr) :=
        token_manager.create_token agent.name document permissions now randomPart
          ttl_seconds
      let proxy_path := "/api/v1/proxy"
      let proxy_url :=
        match proxy_base_url with
        | some base =>
            if base == "" then proxy_path
            else base.dropRightWhile (fun c => c == '/') ++ proxy_path
        | none => proxy_path
      (.ok { token := session.token
             document := session.document
             permissions := session.permissions
             expires_at := session.expires_at
             proxy_url := proxy_url }, mgr)

/-! ## HTTP handlers (main.py) -/

/-- A `\x7b"success": False, "error": ..., "code": ...\x7d` response body. -/
def errBody (message code : String) : Value :=
  .obj [("success", .bool false), ("error", .str message), ("code", .str code)]

/-- `main.handle_proxy`, modelled from bearer-token extraction onward:
`bearer` is the result of `_get_bearer_token`, `body = none` models a
JSON decode failure, `some b` a decoded JSON object.  Returns the HTTP
status, the JSON response value, and the upstream calls performed. -/
def handle_proxy (bearer : Option String) (mgr : SessionTokenManager)
    (now : Int) (body : Option Body) (auth : Authenticator)
    (client : GristClient) : (Nat × Value) × List ClientCall :=
  match bearer with
  | none => ((401, errBody "Missing Authorization header" "INVALID_TOKEN"), [])
  | some token =>
      match mgr.validate_token token now with
      | none => ((401, errBody "Invalid or expired token" "TOKEN_EXPIRED"), [])
      | some session =>
          match body with
          | none => ((400, errBody "Invalid JSON" "INVALID_REQUEST"), [])
          | some b =>
              match parse_proxy_request b with
              | .error e =>
                  ((if e.code == "UNAUTHORIZED" then 403 else 400,
                    errBody e.message e.code), [])
              | .ok request =>
                  match dispatch_proxy_request request session auth client with
                  | (.ok result, calls) => ((200, result), calls)
                  | (.error e, calls) =>
                      ((if e.code == "UNAUTHORIZED" then 403 else 400,
                        errBody e.message e.code), calls)

/-- `main.handle_attachments`, modelled from bearer-token extraction
onward.  The multipart machinery is abstracted by its observable inputs:
`contentTypeMultipart` is whether the content-type starts with
`multipart/form-data`, `filePart` the file `_parse_multipart` extracted
(name, content), and `uploadResult` the outcome of the `try` block
(document resolution plus `upload_attachment`), whose failure message is
any raised exception's string. -/
def handle_attachments (bearer : Option String) (mgr : SessionTokenManager)
    (now : Int) (contentTypeMultipart : Bool)
    (filePart : Option (String × String))
    (uploadResult : Except String Value) : Nat × Value :=
  match bearer with
  | none => (401, errBody "Missing Authorization header" "INVALID_TOKEN")
  | some token =>
      match mgr.validate_token token now with
      | none => (401, errBody "Invalid or expired token" "TOKEN_EXPIRED")
      | some session =>
          if ¬ session.permissions.contains "write" then
            (403, errBody "Write permission required for attachment upload"
                    "UNAUTHORIZED")
          else if ¬ contentTypeMultipart then
            (400, errBody "Content-Type must be multipart/form-data"
                    "INVALID_REQUEST")
          else
            match filePart with
            | none => (400, errBody "No file found in request" "INVALID_REQUEST")
            | some _ =>
                match uploadResult with
                | .ok result => (200, .obj [("success", .bool true), ("data", result)])
                | .error e => (500, errBody e "GRIST_ERROR")

/-! ## Helper lemmas -/

lemma pyDictGet_insert_self {α : Type} (m : List (String × α)) (k : String) (v : α) :
    pyDictGet (pyDictInsert m k v) k = some v := by
  unfold pyDictInsert
  split
  case isTrue h =>
    induction m with
    | nil => simp at h
    | cons a m ih =>
      simp only [List.any_cons, Bool.or_eq_true] at h
      by_cases ha : a.1 == k
      · simp [pyDictGet, List.find?, ha]
      · have h' : m.any (fun kv => kv.1 == k) = true := by
          rcases h with h | h
          · exact absurd h ha
          · exact h
        simp only [List.map_cons, if_neg (by simpa using ha)]
        simpa [pyDictGet, List.find?, ha] using ih h'
  case isFalse h =>
    induction m with
    | nil => simp [pyDictGet, List.find?]
    | cons a m ih =>
      simp only [List.any_cons, Bool.or_eq_true, not_or] at h
      have ha : (a.1 == k) = false := by
        cases hb : a.1 == k
        · rfl
        · exact absurd hb h.1
      simp only [List.cons_append]
      simpa [pyDictGet, List.find?, ha] using ih (by simpa using h.2)

lemma pyDictGet_map_replace {α : Type} (m : List (String × α)) (k k' : String)
    (v : α) (h : k' ≠ k) :
    pyDictGet (m.map (fun kv => if kv.1 == k then (k, v) else kv)) k' =
      pyDictGet m k' := by
  have hkk : (k == k') = false := beq_eq_false_iff_ne.mpr (Ne.symm h)
  induction m with
  | nil => rfl
  | cons a m ih =>
    by_cases ha : (a.1 == k) = true
    · have ha' : a.1 = k := by simpa using ha
      have hak : (a.1 == k') = false := by rw [ha']; exact hkk
      simp only [List.map_cons, if_pos ha]
      rw [pyDictGet, pyDictGet, List.find?_cons_of_neg _ (by simp [hkk]),
        List.find?_cons_of_neg _ (by simp [hak])]
      exact ih
    · simp only [List.map_cons, if_neg ha]
      cases hc : a.1 == k' with
      | true =>
        rw [pyDictGet, pyDictGet, List.find?_cons_of_pos _ (by simp [hc]),
          List.find?_cons_of_pos _ (by simp [hc])]
      | false =>
        rw [pyDictGet, pyDictGet, List.find?_cons_of_neg _ (by simp [hc]),
          List.find?_cons_of_neg _ (by simp [hc])]
        exact ih

lemma pyDictGet_append_single {α : Type} (m : List (String × α)) (k k' : String)
    (v : α) (h : k' ≠ k) :
    pyDictGet (m ++ [(k, v)]) k' = pyDictGet m k' := by
  have hkk : (k == k') = false := beq_eq_false_iff_ne.mpr (Ne.symm h)
  induction m with
  | nil => simp [pyDictGet, List.find?, hkk]
  | cons a m ih =>
    simp only [List.cons_append]
    cases hc : a.1 == k' with
    | true =>
      rw [pyDictGet, pyDictGet, List.find?_cons_of_pos _ (by simp [hc]),
        List.find?_cons_of_pos _ (by simp [hc])]
    | false =>
      rw [pyDictGet, pyDictGet, List.find?_cons_of_neg _ (by simp [hc]),
        List.find?_cons_of_neg _ (by simp [hc])]
      exact ih

lemma pyDictGet_insert_other {α : Type} (m : List (String × α)) (k k' : String)
    (v : α) (h : k' ≠ k) :
    pyDictGet (pyDictInsert m k v) k' = pyDictGet m k' := by
  unfold pyDictInsert
  split
  · exact pyDictGet_map_replace m k k' v h
  · exact pyDictGet_append_single m k k' v h

lemma pyDictGet_pyDictInsert {α : Type} (m : List (String × α)) (k k' : String)
    (v : α) :
    pyDictGet (pyDictInsert m k v) k' =
      if k' = k then some v else pyDictGet m k' := by
  by_cases h : k' = k
  · subst h; simp [pyDictGet_insert_self]
  · simp [h, pyDictGet_insert_other m k k' v h]

/-! ## Concrete example values used by witnesses -/

/-- An injected upstream client whose operations all succeed. -/
def exClient : GristClient where
  list_tables := .ok (.list [])
  describe_table := fun _ => .ok (.list [])
  get_records := fun _ _ _ _ => .ok (.list [])
  sql_query := fun _ => .ok (.list [])
  add_records := fun _ _ => .ok (.list [.int 1])
  update_records := fun _ _ => .ok ()
  delete_records := fun _ _ => .ok ()
  create_table := fun _ _ => .ok (.str "T")
  add_column := fun _ _ _ _ => .ok ()
  modify_column := fun _ _ _ _ => .ok ()
  delete_column := fun _ _ => .ok ()

/-- An injected upstream client whose `list_tables` raises. -/
def exClientBoom : GristClient :=
  { exClient with list_tables := .error "boom" }

/-- A manager holding one unexpired session token "t" with read permission. -/
def exMgr : SessionTokenManager :=
  ⟨[("t", ⟨"t", "doc", ["read"], "bot", 0, 300⟩)]⟩

/-- An authenticator over the empty configuration. -/
def exAuth : Authenticator := Authenticator.ofConfig ⟨[], []⟩

/-! ## Claims -/

/-- Claim C3: `create_token` with requested TTL `t` returns a token with
`expires_at = created_at + min(t, 3600)`, hence never usable beyond 3600
seconds from creation (7200 is capped to 3600), and the default requested
TTL is 300 seconds. -/
theorem create_token_ttl_cap (mgr : SessionTokenManager)
    (agent_name document : String) (permissions : List String)
    (now : Int) (randomPart : String) (t : Int) :
    (mgr.create_token agent_name document permissions now randomPart t).1.created_at
        = now ∧
    (mgr.create_token agent_name document permissions now randomPart t).1.expires_at
        = now + min t 3600 ∧
    (mgr.create_token agent_name document permissions now randomPart t).1.expires_at
        ≤ now + 3600 ∧
    (mgr.create_token agent_name document permissions now randomPart 7200).1.expires_at
        = now + 3600 ∧
    (mgr.create_token agent_name document permissions now randomPart).1.expires_at
        = now + 300 := by
  refine ⟨rfl, ?_, ?_, ?_, ?_⟩ <;>
    simp only [SessionTokenManager.create_token, MAX_TTL_SECONDS,
      DEFAULT_TTL_SECONDS] <;> omega

/-- Claim C4: `validate_token` returns the stored `SessionToken` exactly
when the token string is present in the in-memory map and its
`expires_at` has not passed; an expired token is invalid (`none`) even
though its entry is still physically present in the map.  The operation
is a total function into `Option`, so it never throws. -/
theorem validate_token_lookup (mgr : SessionTokenManager) (token : String)
    (now : Int) :
    (∀ s, mgr.validate_token token now = some s ↔
        (pyDictGet mgr.tokens token = some s ∧ now < s.expires_at)) ∧
    (∀ s, pyDictGet mgr.tokens token = some s → s.expires_at ≤ now →
        mgr.validate_token token now = none) := by
  constructor
  · intro s
    unfold SessionTokenManager.validate_token
    cases h : pyDictGet mgr.tokens token with
    | none => simp
    | some s' =>
      simp only [Option.some.injEq]
      by_cases hle : s'.expires_at ≤ now
      · simp only [if_pos hle]
        constructor
        · intro hv; exact absurd hv (by simp)
        · rintro ⟨rfl, hlt⟩; omega
      · simp only [if_neg hle, Option.some.injEq]
        constructor
        · rintro rfl; exact ⟨rfl, by omega⟩
        · rintro ⟨rfl, _⟩; rfl
  · intro s hs hle
    unfold SessionTokenManager.validate_token
    rw [hs]
    simp [hle]

/-- Claim C4 witness: a concrete manager holding a token that expired at
time 50; at time 60 the entry is still present in the map but validation
returns `none`. -/
theorem validate_token_lookup_witness :
    pyDictGet (SessionTokenManager.mk
        [("sess_a", ⟨"sess_a", "doc", ["read"], "agent", 0, 50⟩)]).tokens "sess_a"
      = some ⟨"sess_a", "doc", ["read"], "agent", 0, 50⟩ ∧
    (50 : Int) ≤ 60 ∧
    (SessionTokenManager.mk
        [("sess_a", ⟨"sess_a", "doc", ["read"], "agent", 0, 50⟩)]).validate_token
        "sess_a" 60 = none :=
  ⟨by decide, by decide,
    (validate_token_lookup
        (SessionTokenManager.mk
          [("sess_a", ⟨"sess_a", "doc", ["read"], "agent", 0, 50⟩)]) "sess_a" 60).2
      ⟨"sess_a", "doc", ["read"], "agent", 0, 50⟩ (by decide) (by decide)⟩

/-- Claim C6: `authorize` scans the scope for the first entry matching the
document; a matching entry with the permission present succeeds, a
matching entry without it fails with the permission-denied error, and no
matching entry fails with the document-not-in-scope error. -/
theorem authorize_cases (auth : Authenticator) (agent : Agent)
    (document : String) (permission : Permission) :
    (∀ entry,
        agent.token_obj.scope.find? (fun s => s.document == document) = some entry →
        ((entry.permissions.contains permission.value = true →
            auth.authorize agent document permission = .ok ()) ∧
         (entry.permissions.contains permission.value = false →
            auth.authorize agent document permission = .error ⟨"Permission denied"⟩))) ∧
    ((∀ e ∈ agent.token_obj.scope, e.document ≠ document) →
        auth.authorize agent document permission = .error ⟨"Document not in scope"⟩) := by
  constructor
  · intro entry hfind
    constructor
    · intro hc
      have hmem : permission.value ∈ entry.permissions := by simpa using hc
      simp [Authenticator.authorize, hfind, hmem]
    · intro hc
      have hmem : permission.value ∉ entry.permissions := by simpa using hc
      simp [Authenticator.authorize, hfind, hmem]
  · intro hnone
    unfold Authenticator.authorize
    have : agent.token_obj.scope.find? (fun s => s.document == document) = none := by
      rw [List.find?_eq_none]
      intro e he
      simpa using hnone e he
    rw [this]

/-- Claim C6 witness: a concrete agent scoped to document "sales" with
permissions [read, write]: read on "sales" succeeds, schema on "sales" is
denied, and any permission on "hr" is out of scope. -/
theorem authorize_cases_witness :
    ((⟨"sales", ["read", "write"]⟩ : TokenScope).permissions.contains
        Permission.read.value = true ∧
      (Authenticator.ofConfig ⟨[], []⟩).authorize
        ⟨"tok", "bot", ⟨"tok", "bot", [⟨"sales", ["read", "write"]⟩]⟩⟩
        "sales" Permission.read = .ok ()) ∧
    ((⟨"sales", ["read", "write"]⟩ : TokenScope).permissions.contains
        Permission.schema.value = false ∧
      (Authenticator.ofConfig ⟨[], []⟩).authorize
        ⟨"tok", "bot", ⟨"tok", "bot", [⟨"sales", ["read", "write"]⟩]⟩⟩
        "sales" Permission.schema = .error ⟨"Permission denied"⟩) ∧
    (Authenticator.ofConfig ⟨[], []⟩).authorize
        ⟨"tok", "bot", ⟨"tok", "bot", [⟨"sales", ["read", "write"]⟩]⟩⟩
        "hr" Permission.read = .error ⟨"Document not in scope"⟩ :=
  ⟨⟨by decide,
    ((authorize_cases (Authenticator.ofConfig ⟨[], []⟩)
        ⟨"tok", "bot", ⟨"tok", "bot", [⟨"sales", ["read", "write"]⟩]⟩⟩
        "sales" Permission.read).1 ⟨"sales", ["read", "write"]⟩ (by decide)).1
      (by decide)⟩,
   ⟨by decide,
    ((authorize_cases (Authenticator.ofConfig ⟨[], []⟩)
        ⟨"tok", "bot", ⟨"tok", "bot", [⟨"sales", ["read", "write"]⟩]⟩⟩
        "sales" Permission.schema).1 ⟨"sales", ["read", "write"]⟩ (by decide)).2
      (by decide)⟩,
   (authorize_cases (Authenticator.ofConfig ⟨[], []⟩)
        ⟨"tok", "bot", ⟨"tok", "bot", [⟨"sales", ["read", "write"]⟩]⟩⟩
        "hr" Permission.read).2 (by decide)⟩

lemma check_requested_permissions_ok_iff (auth : Authenticator) (agent : Agent)
    (document : String) (l : List String) :
    check_requested_permissions auth agent document l = .ok () ↔
      ∀ p ∈ l, ∃ perm, Permission.ofString p = some perm ∧
        auth.authorize agent document perm = .ok () := by
  induction l with
  | nil => simp [check_requested_permissions]
  | cons p rest ih =>
    simp only [check_requested_permissions, List.mem_cons, forall_eq_or_imp]
    cases hp : Permission.ofString p with
    | none => simp [hp]
    | some perm =>
      cases ha : auth.authorize agent document perm with
      | error e => simp [hp, ha]
      | ok u => cases u; simp [hp, ha, ih]

/-- Claim C2: `request_session_token` creates and stores a session token
iff every requested permission string parses as a `Permission` and passes
`authorize`; on any failure nothing is added to the manager's map (the
manager comes back unchanged, so `create_token` was never reached); on
success the new token is stored.  Concretely, an agent scoped to
`sales: [read, write]` requesting `[read, schema]` fails with the
permission-denied error and no token is created. -/
theorem request_session_token_authorization (agent : Agent)
    (auth : Authenticator) (mgr : SessionTokenManager) (document : String)
    (permissions : List String) (now : Int) (randomPart : String) (ttl : Int)
    (base : Option String) :
    ((∃ resp mgr', request_session_token agent auth mgr document permissions
        now randomPart ttl base = (.ok resp, mgr')) ↔
      ∀ p ∈ permissions, ∃ perm, Permission.ofString p = some perm ∧
        auth.authorize agent document perm = .ok ()) ∧
    (∀ e, (request_session_token agent auth mgr document permissions now
        randomPart ttl base).1 = .error e →
      (request_session_token agent auth mgr document permissions now
        randomPart ttl base).2 = mgr) ∧
    (∀ resp mgr', request_session_token agent auth mgr document permissions
        now randomPart ttl base = (.ok resp, mgr') →
      pyDictGet mgr'.tokens ("sess_" ++ randomPart) =
        some ⟨"sess_" ++ randomPart, document, permissions, agent.name, now,
              now + min ttl 3600⟩) ∧
    (agent.token_obj.scope = [⟨"sales", ["read", "write"]⟩] →
      request_session_token agent auth mgr "sales" ["read", "schema"] now
        randomPart ttl base = (.error ⟨"Permission denied"⟩, mgr)) := by
  refine ⟨?_, ?_, ?_, ?_⟩
  · cases hc : check_requested_permissions auth agent document permissions with
    | error e =>
      rw [← check_requested_permissions_ok_iff]
      simp [request_session_token, hc]
    | ok u =>
      cases u
      rw [← check_requested_permissions_ok_iff (l := permissions)]
      simp [request_session_token, hc]
  · intro e he
    cases hc : check_requested_permissions auth agent document permissions with
    | error e' => simp [request_session_token, hc]
    | ok u =>
      cases u
      simp [request_session_token, hc] at he
  · intro resp mgr' hok
    cases hc : check_requested_permissions auth agent document permissions with
    | error e' => simp [request_session_token, hc] at hok
    | ok u =>
      cases u
      simp only [request_session_token, hc] at hok
      have hm : mgr' = (mgr.create_token agent.name document permissions now
          randomPart ttl).2 := by
        have := congrArg Prod.snd hok
        simpa using this.symm
      subst hm
      simp only [SessionTokenManager.create_token, MAX_TTL_SECONDS]
      exact pyDictGet_insert_self mgr.tokens _ _
  · intro hscope
    have hcheck : check_requested_permissions auth agent "sales"
        ["read", "schema"] = .error ⟨"Permission denied"⟩ := by
      simp [check_requested_permissions, Permission.ofString,
        Authenticator.authorize, hscope, Permission.value]
    simp [request_session_token, hcheck]

/-- Claim C2 witness: a concrete agent scoped to `sales: [read, write]`
requesting `[read, schema]` fails with the permission-denied error and
the manager map stays empty. -/
theorem request_session_token_authorization_witness :
    (Agent.mk "tok" "bot" ⟨"tok", "bot", [⟨"sales", ["read", "write"]⟩]⟩).token_obj.scope
        = [⟨"sales", ["read", "write"]⟩] ∧
    request_session_token
        ⟨"tok", "bot", ⟨"tok", "bot", [⟨"sales", ["read", "write"]⟩]⟩⟩
        (Authenticator.ofConfig ⟨[], []⟩) ⟨[]⟩ "sales" ["read", "schema"]
        0 "r" 60 none = (.error ⟨"Permission denied"⟩, ⟨[]⟩) :=
  ⟨rfl,
    (request_session_token_authorization
        ⟨"tok", "bot", ⟨"tok", "bot", [⟨"sales", ["read", "write"]⟩]⟩⟩
        (Authenticator.ofConfig ⟨[], []⟩) ⟨[]⟩ "sales" ["read", "schema"]
        0 "r" 60 none).2.2.2 rfl⟩

lemma pyDictGet_eq_none {α : Type} (m : List (String × α)) (k : String)
    (h : ∀ kv ∈ m, kv.1 ≠ k) : pyDictGet m k = none := by
  unfold pyDictGet
  rw [List.find?_eq_none.mpr]
  · rfl
  · intro kv hkv
    simpa using h kv hkv

/-- Claim C7: the method-to-permission table is exactly the eleven listed
entries (read: list_tables, describe_table, get_records, sql_query;
write: add_records, update_records, delete_records; schema: create_table,
add_column, modify_column, delete_column); every other method name is
absent from the table, and a request whose method is not in the table is
rejected by `dispatch_proxy_request` with code INVALID_REQUEST (never
UNAUTHORIZED), whatever the session token's permissions. -/
theorem method_permission_mapping :
    (methodPermission (.str "list_tables") = some "read" ∧
     methodPermission (.str "describe_table") = some "read" ∧
     methodPermission (.str "get_records") = some "read" ∧
     methodPermission (.str "sql_query") = some "read" ∧
     methodPermission (.str "add_records") = some "write" ∧
     methodPermission (.str "update_records") = some "write" ∧
     methodPermission (.str "delete_records") = some "write" ∧
     methodPermission (.str "create_table") = some "schema" ∧
     methodPermission (.str "add_column") = some "schema" ∧
     methodPermission (.str "modify_column") = some "schema" ∧
     methodPermission (.str "delete_column") = some "schema") ∧
    (∀ s : String,
      s ∉ ["list_tables", "describe_table", "get_records", "sql_query",
           "add_records", "update_records", "delete_records", "create_table",
           "add_column", "modify_column", "delete_column"] →
      methodPermission (.str s) = none) ∧
    (∀ (req : ProxyRequest) (session : SessionToken) (auth : Authenticator)
        (client : GristClient), methodPermission req.method = none →
      dispatch_proxy_request req session auth client =
        (.error ⟨"Unknown method: " ++ req.method.pyStr, "INVALID_REQUEST"⟩, [])) := by
  refine ⟨⟨rfl, rfl, rfl, rfl, rfl, rfl, rfl, rfl, rfl, rfl, rfl⟩, ?_, ?_⟩
  · intro s hs
    simp only [List.mem_cons, List.not_mem_nil, or_false, not_or] at hs
    obtain ⟨h1, h2, h3, h4, h5, h6, h7, h8, h9, h10, h11⟩ := hs
    unfold methodPermission
    apply pyDictGet_eq_none
    intro kv hkv
    simp only [METHOD_PERMISSIONS, List.mem_cons, List.not_mem_nil,
      or_false] at hkv
    rcases hkv with rfl | rfl | rfl | rfl | rfl | rfl | rfl | rfl | rfl | rfl | rfl <;>
      first
      | exact fun e => h1 e.symm
      | exact fun e => h2 e.symm
      | exact fun e => h3 e.symm
      | exact fun e => h4 e.symm
      | exact fun e => h5 e.symm
      | exact fun e => h6 e.symm
      | exact fun e => h7 e.symm
      | exact fun e => h8 e.symm
      | exact fun e => h9 e.symm
      | exact fun e => h10 e.symm
      | exact fun e => h11 e.symm
  · intro req session auth client h
    simp [dispatch_proxy_request, h]

/-- Claim C7 witness: the unknown method name "frobnicate" is outside the
table and is rejected with INVALID_REQUEST even for a session token
holding every permission. -/
theorem method_permission_mapping_witness :
    ("frobnicate" : String) ∉
      (["list_tables", "describe_table", "get_records", "sql_query",
        "add_records", "update_records", "delete_records", "create_table",
        "add_column", "modify_column", "delete_column"] : List String) ∧
    methodPermission (.str "frobnicate") = none ∧
    dispatch_proxy_request { method := .str "frobnicate" }
        ⟨"sess_x", "doc", ["read", "write", "schema"], "bot", 0, 300⟩
        (Authenticator.ofConfig ⟨[], []⟩) exClient =
      (.error ⟨"Unknown method: frobnicate", "INVALID_REQUEST"⟩, []) :=
  ⟨by decide,
   (method_permission_mapping).2.1 "frobnicate" (by decide),
   (method_permission_mapping).2.2 { method := .str "frobnicate" }
     ⟨"sess_x", "doc", ["read", "write", "schema"], "bot", 0, 300⟩
     (Authenticator.ofConfig ⟨[], []⟩) exClient rfl⟩

lemma dispatch_case_list_tables_code (client : GristClient) (e : ProxyError)
    (calls : List ClientCall)
    (h : dispatch_case_list_tables client = (.error (.proxy e), calls)) :
    e.code = "INVALID_REQUEST" := by
  unfold dispatch_case_list_tables at h
  split at h <;> simp_all

lemma dispatch_case_describe_table_code (req : ProxyRequest)
    (client : GristClient) (e : ProxyError) (calls : List ClientCall)
    (h : dispatch_case_describe_table req client = (.error (.proxy e), calls)) :
    e.code = "INVALID_REQUEST" := by
  unfold dispatch_case_describe_table at h
  split at h <;> simp_all

lemma dispatch_case_get_records_code (req : ProxyRequest)
    (client : GristClient) (e : ProxyError) (calls : List ClientCall)
    (h : dispatch_case_get_records req client = (.error (.proxy e), calls)) :
    e.code = "INVALID_REQUEST" := by
  unfold dispatch_case_get_records at h
  split at h <;> simp_all

lemma dispatch_case_sql_query_code (req : ProxyRequest)
    (client : GristClient) (e : ProxyError) (calls : List ClientCall)
    (h : dispatch_case_sql_query req client = (.error (.proxy e), calls)) :
    e.code = "INVALID_REQUEST" := by
  unfold dispatch_case_sql_query at h
  repeat' split at h
  all_goals
    first
    | (simp_all; done)
    | (injection h with h1 h2
       injection h1 with h3
       injection h3 with h4
       rw [← h4])

lemma dispatch_case_add_records_code (req : ProxyRequest)
    (client : GristClient) (e : ProxyError) (calls : List ClientCall)
    (h : dispatch_case_add_records req client = (.error (.proxy e), calls)) :
    e.code = "INVALID_REQUEST" := by
  unfold dispatch_case_add_records at h
  repeat' split at h
  all_goals
    first
    | (simp_all; done)
    | (injection h with h1 h2
       injection h1 with h3
       injection h3 with h4
       rw [← h4])

lemma dispatch_case_update_records_code (req : ProxyRequest)
    (client : GristClient) (e : ProxyError) (calls : List ClientCall)
    (h : dispatch_case_update_records req client = (.error (.proxy e), calls)) :
    e.code = "INVALID_REQUEST" := by
  unfold dispatch_case_update_records at h
  repeat' split at h
  all_goals
    first
    | (simp_all; done)
    | (injection h with h1 h2
       injection h1 with h3
       injection h3 with h4
       rw [← h4])

lemma dispatch_case_delete_records_code (req : ProxyRequest)
    (client : GristClient) (e : ProxyError) (calls : List ClientCall)
    (h : dispatch_case_delete_records req client = (.error (.proxy e), calls)) :
    e.code = "INVALID_REQUEST" := by
  unfold dispatch_case_delete_records at h
  repeat' split at h
  all_goals
    first
    | (simp_all; done)
    | (injection h with h1 h2
       injection h1 with h3
       injection h3 with h4
       rw [← h4])

lemma dispatch_case_create_table_code (req : ProxyRequest)
    (client : GristClient) (e : ProxyError) (calls : List ClientCall)
    (h : dispatch_case_create_table req client = (.error (.proxy e), calls)) :
    e.code = "INVALID_REQUEST" := by
  unfold dispatch_case_create_table at h
  repeat' split at h
  all_goals
    first
    | (simp_all; done)
    | (injection h with h1 h2
       injection h1 with h3
       injection h3 with h4
       rw [← h4])

lemma dispatch_case_add_column_code (req : ProxyRequest)
    (client : GristClient) (e : ProxyError) (calls : List ClientCall)
    (h : dispatch_case_add_column req client = (.error (.proxy e), calls)) :
    e.code = "INVALID_REQUEST" := by
  unfold dispatch_case_add_column at h
  repeat' split at h
  all_goals
    first
    | (simp_all; done)
    | (injection h with h1 h2
       injection h1 with h3
       injection h3 with h4
       rw [← h4])

lemma dispatch_case_modify_column_code (req : ProxyRequest)
    (client : GristClient) (e : ProxyError) (calls : List ClientCall)
    (h : dispatch_case_modify_column req client = (.error (.proxy e), calls)) :
    e.code = "INVALID_REQUEST" := by
  unfold dispatch_case_modify_column at h
  repeat' split at h
  all_goals
    first
    | (simp_all; done)
    | (injection h with h1 h2
       injection h1 with h3
       injection h3 with h4
       rw [← h4])

lemma dispatch_case_delete_column_code (req : ProxyRequest)
    (client : GristClient) (e : ProxyError) (calls : List ClientCall)
    (h : dispatch_case_delete_column req client = (.error (.proxy e), calls)) :
    e.code = "INVALID_REQUEST" := by
  unfold dispatch_case_delete_column at h
  repeat' split at h
  all_goals
    first
    | (simp_all; done)
    | (injection h with h1 h2
       injection h1 with h3
       injection h3 with h4
       rw [← h4])

lemma dispatch_body_proxy_code (req : ProxyRequest) (client : GristClient)
    (e : ProxyError) (calls : List ClientCall)
    (h : dispatch_body req client = (.error (.proxy e), calls)) :
    e.code = "INVALID_REQUEST" := by
  unfold dispatch_body at h
  by_cases c1 : req.method.isStr "list_tables" = true
  · rw [if_pos c1] at h
    exact dispatch_case_list_tables_code client e calls h
  rw [if_neg c1] at h
  by_cases c2 : req.method.isStr "describe_table" = true
  · rw [if_pos c2] at h
    exact dispatch_case_describe_table_code req client e calls h
  rw [if_neg c2] at h
  by_cases c3 : req.method.isStr "get_records" = true
  · rw [if_pos c3] at h
    exact dispatch_case_get_records_code req client e calls h
  rw [if_neg c3] at h
  by_cases c4 : req.method.isStr "sql_query" = true
  · rw [if_pos c4] at h
    exact dispatch_case_sql_query_code req client e calls h
  rw [if_neg c4] at h
  by_cases c5 : req.method.isStr "add_records" = true
  · rw [if_pos c5] at h
    exact dispatch_case_add_records_code req client e calls h
  rw [if_neg c5] at h
  by_cases c6 : req.method.isStr "update_records" = true
  · rw [if_pos c6] at h
    exact dispatch_case_update_records_code req client e calls h
  rw [if_neg c6] at h
  by_cases c7 : req.method.isStr "delete_records" = true
  · rw [if_pos c7] at h
    exact dispatch_case_delete_records_code req client e calls h
  rw [if_neg c7] at h
  by_cases c8 : req.method.isStr "create_table" = true
  · rw [if_pos c8] at h
    exact dispatch_case_create_table_code req client e calls h
  rw [if_neg c8] at h
  by_cases c9 : req.method.isStr "add_column" = true
  · rw [if_pos c9] at h
    exact dispatch_case_add_column_code req client e calls h
  rw [if_neg c9] at h
  by_cases c10 : req.method.isStr "modify_column" = true
  · rw [if_pos c10] at h
    exact dispatch_case_modify_column_code req client e calls h
  rw [if_neg c10] at h
  by_cases c11 : req.method.isStr "delete_column" = true
  · rw [if_pos c11] at h
    exact dispatch_case_delete_column_code req client e calls h
  rw [if_neg c11] at h
  injection h with h1 h2
  injection h1 with h3
  injection h3 with h4
  rw [← h4]

lemma dispatch_past_permission_check (req : ProxyRequest)
    (session : SessionToken) (auth : Authenticator) (client : GristClient)
    (p : String) (hp : methodPermission req.method = some p)
    (hc : session.permissions.contains p = true) :
    dispatch_proxy_request req session auth client =
      (wrapDispatchExc (dispatch_body req client).1,
       (dispatch_body req client).2) := by
  have hmem : p ∈ session.permissions := by simpa using hc
  unfold dispatch_proxy_request
  rw [hp]
  simp [hmem]

/-- Claim C1: the dispatcher's authorization check passes iff the
method's required permission is a member of the session token's carried
permission list; the decision never consults the issuing agent's
credential store (the result is independent of the `Authenticator`
argument); a mismatch fails with code UNAUTHORIZED.  In particular a
session token with permissions `[read]` presented for `add_records`
fails UNAUTHORIZED, while for `get_records` with read permission the
request is forwarded to the upstream client with the request's
table/filter/sort/limit arguments. -/
theorem dispatch_authorization_boundary (req : ProxyRequest)
    (session : SessionToken) (auth : Authenticator) (client : GristClient)
    (p : String) (hp : methodPermission req.method = some p) :
    ((∃ m, (dispatch_proxy_request req session auth client).1 =
        .error ⟨m, "UNAUTHORIZED"⟩) ↔
      session.permissions.contains p = false) ∧
    (∀ auth' : Authenticator,
      dispatch_proxy_request req session auth client =
        dispatch_proxy_request req session auth' client) ∧
    (req.method = .str "add_records" → session.permissions = ["read"] →
      dispatch_proxy_request req session auth client =
        (.error ⟨"Permission \x27write\x27 required for add_records",
                 "UNAUTHORIZED"⟩, [])) ∧
    (req.method = .str "get_records" →
      session.permissions.contains "read" = true →
      (dispatch_proxy_request req session auth client).2 =
        [.get_records req.table req.filter req.sort req.limit]) := by
  refine ⟨?_, fun _ => rfl, ?_, ?_⟩
  · constructor
    · rintro ⟨m, hm⟩
      cases hc : session.permissions.contains p with
      | false => rfl
      | true =>
        rw [dispatch_past_permission_check req session auth client p hp hc] at hm
        simp only at hm
        rcases hdb : dispatch_body req client with ⟨r, calls⟩
        rw [hdb] at hm
        simp only at hm
        cases r with
        | ok v => exact absurd hm (by simp [wrapDispatchExc])
        | error exc =>
          cases exc with
          | proxy e' =>
            have hcode := dispatch_body_proxy_code req client e' calls hdb
            simp only [wrapDispatchExc, Except.error.injEq] at hm
            rw [hm] at hcode
            simp at hcode
          | generic m' =>
            simp only [wrapDispatchExc, Except.error.injEq] at hm
            have : ("GRIST_ERROR" : String) = "UNAUTHORIZED" :=
              congrArg ProxyError.code hm
            simp at this
    · intro hc
      have hmem : p ∉ session.permissions := by simpa using hc
      refine ⟨"Permission \x27" ++ p ++ "\x27 required for " ++ req.method.pyStr, ?_⟩
      unfold dispatch_proxy_request
      rw [hp]
      simp [hmem]
  · intro h1 h2
    unfold dispatch_proxy_request
    rw [h1, h2]
    rfl
  · intro h1 hc
    have hp' : methodPermission req.method = some "read" := by rw [h1]; rfl
    rw [dispatch_past_permission_check req session auth client "read" hp' hc]
    simp only
    unfold dispatch_body
    rw [h1]
    simp only [Value.isStr, beq_self_eq_true, if_true, show
      (("get_records" : String) == "list_tables") = false from rfl, show
      (("get_records" : String) == "describe_table") = false from rfl,
      Bool.false_eq_true, if_false]
    unfold dispatch_case_get_records
    cases client.get_records req.table req.filter req.sort req.limit <;> rfl

/-- Claim C1 witness: a concrete session token with permissions `[read]`:
`add_records` fails UNAUTHORIZED; `get_records` with table "Orders" and a
filter forwards exactly those arguments to the upstream client. -/
theorem dispatch_authorization_boundary_witness :
    methodPermission ({ method := .str "add_records" } : ProxyRequest).method =
        some "write" ∧
    dispatch_proxy_request { method := .str "add_records" }
        ⟨"sess_x", "doc", ["read"], "bot", 0, 300⟩ exAuth exClient =
      (.error ⟨"Permission \x27write\x27 required for add_records",
               "UNAUTHORIZED"⟩, []) ∧
    methodPermission
        ({ method := .str "get_records", table := .str "Orders",
           filter := .obj [("qty", .int 1)] } : ProxyRequest).method =
      some "read" ∧
    (dispatch_proxy_request
        { method := .str "get_records", table := .str "Orders",
          filter := .obj [("qty", .int 1)] }
        ⟨"sess_x", "doc", ["read"], "bot", 0, 300⟩ exAuth exClient).2 =
      [.get_records (.str "Orders") (.obj [("qty", .int 1)]) .null .null] :=
  ⟨rfl,
   (dispatch_authorization_boundary { method := .str "add_records" }
       ⟨"sess_x", "doc", ["read"], "bot", 0, 300⟩ exAuth exClient "write"
       rfl).2.2.1 rfl rfl,
   rfl,
   (dispatch_authorization_boundary
       { method := .str "get_records", table := .str "Orders",
         filter := .obj [("qty", .int 1)] }
       ⟨"sess_x", "doc", ["read"], "bot", 0, 300⟩ exAuth exClient "read"
       rfl).2.2.2 rfl rfl⟩

/-- Claim C9: whenever the `try`-block body of the dispatcher raises a
non-`ProxyError` exception (in particular any exception from the
upstream client operation), `dispatch_proxy_request` raises a
`ProxyError` with code GRIST_ERROR wrapping the exception's message; the
original exception never crosses the proxy boundary (the result type
admits only `ProxyError`). -/
theorem dispatch_wraps_upstream_error (req : ProxyRequest)
    (session : SessionToken) (auth : Authenticator) (client : GristClient)
    (p : String) (m : String) (hp : methodPermission req.method = some p)
    (hc : session.permissions.contains p = true)
    (hb : (dispatch_body req client).1 = .error (.generic m)) :
    (dispatch_proxy_request req session auth client).1 =
      .error ⟨m, "GRIST_ERROR"⟩ := by
  rw [dispatch_past_permission_check req session auth client p hp hc]
  simp only
  rw [hb]
  rfl

/-- Claim C9 witness: a concrete client whose `list_tables` raises with
message "boom": the dispatcher reports GRIST_ERROR "boom". -/
theorem dispatch_wraps_upstream_error_witness :
    methodPermission ({ method := .str "list_tables" } : ProxyRequest).method =
        some "read" ∧
    (⟨"sess_x", "doc", ["read"], "bot", 0, 300⟩ :
        SessionToken).permissions.contains "read" = true ∧
    (dispatch_body { method := .str "list_tables" } exClientBoom).1 =
      .error (.generic "boom") ∧
    (dispatch_proxy_request { method := .str "list_tables" }
        ⟨"sess_x", "doc", ["read"], "bot", 0, 300⟩ exAuth exClientBoom).1 =
      .error ⟨"boom", "GRIST_ERROR"⟩ :=
  ⟨rfl, by decide, rfl,
   dispatch_wraps_upstream_error { method := .str "list_tables" }
     ⟨"sess_x", "doc", ["read"], "bot", 0, 300⟩ exAuth exClientBoom
     "read" "boom" rfl (by decide) rfl⟩

lemma hasKey_false_get_null (body : Body) (k : String)
    (h : Body.hasKey body k = false) : Body.get body k = .null := by
  have hall : ∀ kv ∈ body, ¬((fun kv : String × Value => kv.1 == k) kv = true) := by
    simp only [Body.hasKey, List.any_eq_false] at h
    exact h
  have hf : body.find? (fun kv => kv.1 == k) = none := List.find?_eq_none.mpr hall
  simp [Body.get, hf]

lemma parse_error_code (body : Body) (e : ProxyError)
    (h : parse_proxy_request body = .error e) : e.code = "INVALID_REQUEST" := by
  unfold parse_proxy_request at h
  repeat' (first | split at h | simp only [] at h)
  all_goals
    first
    | exact Except.noConfusion h
    | (injection h with h1
       rw [← h1])

/-- Claim C8: a request body with no `method` key, or with a
table-requiring method and no `table` key, is rejected by the parser
with code INVALID_REQUEST; every parse failure carries that code; and
through `handle_proxy` such a body produces the 400 INVALID_REQUEST
response with zero upstream client calls, before any permission check
(the parser never looks at a session). -/
theorem parse_missing_fields (body : Body) :
    (Body.hasKey body "method" = false →
      parse_proxy_request body =
        .error ⟨"Missing required field: method", "INVALID_REQUEST"⟩) ∧
    (methodRequiresTable (Body.get body "method") = true →
      Body.hasKey body "table" = false →
      parse_proxy_request body =
        .error ⟨"Missing required field \x27table\x27 for method \x27" ++
                (Body.get body "method").pyStr ++ "\x27", "INVALID_REQUEST"⟩) ∧
    (∀ e, parse_proxy_request body = .error e → e.code = "INVALID_REQUEST") ∧
    (∀ (mgr : SessionTokenManager) (now : Int) (token : String)
        (session : SessionToken) (auth : Authenticator) (client : GristClient)
        (e : ProxyError),
      mgr.validate_token token now = some session →
      parse_proxy_request body = .error e →
      handle_proxy (some token) mgr now (some body) auth client =
        ((400, errBody e.message e.code), [])) := by
  refine ⟨?_, ?_, parse_error_code body, ?_⟩
  · intro h
    simp [parse_proxy_request, h]
  · intro hreq htab
    have hm : Body.hasKey body "method" = true := by
      by_contra hb
      have hb' : Body.hasKey body "method" = false := by
        cases hx : Body.hasKey body "method"
        · rfl
        · exact absurd hx hb
      rw [hasKey_false_get_null body "method" hb'] at hreq
      simp [methodRequiresTable] at hreq
    simp [parse_proxy_request, hm, hreq, htab]
  · intro mgr now token session auth client e hval hparse
    have hcode := parse_error_code body e hparse
    simp [handle_proxy, hval, hparse, hcode]

/-- Claim C8 witness: the body `\x7b"method": "get_records"\x7d` (table
missing) is rejected INVALID_REQUEST, and through `handle_proxy` with a
valid session the response is 400 with an empty upstream-call trace. -/
theorem parse_missing_fields_witness :
    methodRequiresTable (Body.get [("method", Value.str "get_records")] "method")
        = true ∧
    Body.hasKey [("method", Value.str "get_records")] "table" = false ∧
    exMgr.validate_token "t" 0 = some ⟨"t", "doc", ["read"], "bot", 0, 300⟩ ∧
    parse_proxy_request [("method", Value.str "get_records")] =
      .error ⟨"Missing required field \x27table\x27 for method \x27get_records\x27",
              "INVALID_REQUEST"⟩ ∧
    handle_proxy (some "t") exMgr 0 (some [("method", Value.str "get_records")])
        exAuth exClient =
      ((400, errBody "Missing required field \x27table\x27 for method \x27get_records\x27"
          "INVALID_REQUEST"), []) :=
  ⟨rfl, rfl, rfl,
   (parse_missing_fields [("method", Value.str "get_records")]).2.1 rfl rfl,
   (parse_missing_fields [("method", Value.str "get_records")]).2.2.2 exMgr 0 "t"
     ⟨"t", "doc", ["read"], "bot", 0, 300⟩ exAuth exClient
     ⟨"Missing required field \x27table\x27 for method \x27get_records\x27",
      "INVALID_REQUEST"⟩ rfl
     ((parse_missing_fields [("method", Value.str "get_records")]).2.1 rfl rfl)⟩

/-- A manager holding one unexpired session token "w" with read and write
permissions. -/
def exMgrW : SessionTokenManager :=
  ⟨[("w", ⟨"w", "doc", ["read", "write"], "bot", 0, 300⟩)]⟩

/-- Claim C5 counterexample: on POST /api/v1/proxy a GRIST_ERROR response
is sent with HTTP status 400, not 500 — a valid read session calling
`list_tables` against an upstream client that raises "boom" yields
status 400 with code GRIST_ERROR. -/
theorem proxy_grist_error_status_counterexample :
    handle_proxy (some "t") exMgr 0 (some [("method", Value.str "list_tables")])
        exAuth exClientBoom =
      ((400, errBody "boom" "GRIST_ERROR"), [ClientCall.list_tables]) ∧
    (400 : Nat) ≠ 500 :=
  ⟨rfl, by decide⟩

/-- Claim C5 (amended): the status depends only on the error code, but
the GRIST_ERROR-to-500 mapping holds only on the attachment endpoints.
On `handle_proxy`: missing bearer gives 401 INVALID_TOKEN, a failed
token validation 401 TOKEN_EXPIRED, undecodable JSON 400
INVALID_REQUEST, and any `ProxyError` is sent with 403 when its code is
UNAUTHORIZED and 400 otherwise — in particular GRIST_ERROR is sent with
400 there; success is 200.  On `handle_attachments`: a missing write
permission gives 403 UNAUTHORIZED and an upstream failure 500
GRIST_ERROR. -/
theorem proxy_status_by_code :
    (∀ mgr now body auth client,
      handle_proxy none mgr now body auth client =
        ((401, errBody "Missing Authorization header" "INVALID_TOKEN"), [])) ∧
    (∀ (token : String) mgr now body auth client,
      mgr.validate_token token now = none →
      handle_proxy (some token) mgr now body auth client =
        ((401, errBody "Invalid or expired token" "TOKEN_EXPIRED"), [])) ∧
    (∀ (token : String) mgr now session auth client,
      mgr.validate_token token now = some session →
      handle_proxy (some token) mgr now none auth client =
        ((400, errBody "Invalid JSON" "INVALID_REQUEST"), [])) ∧
    (∀ (token : String) mgr now session (b : Body) req e calls auth client,
      mgr.validate_token token now = some session →
      parse_proxy_request b = .ok req →
      dispatch_proxy_request req session auth client = (.error e, calls) →
      handle_proxy (some token) mgr now (some b) auth client =
        ((if e.code == "UNAUTHORIZED" then 403 else 400,
          errBody e.message e.code), calls)) ∧
    (∀ (token : String) mgr now session (b : Body) req e calls auth client,
      mgr.validate_token token now = some session →
      parse_proxy_request b = .ok req →
      dispatch_proxy_request req session auth client = (.error e, calls) →
      e.code = "GRIST_ERROR" →
      handle_proxy (some token) mgr now (some b) auth client =
        ((400, errBody e.message "GRIST_ERROR"), calls)) ∧
    (∀ (token : String) mgr now session (b : Body) req result calls auth client,
      mgr.validate_token token now = some session →
      parse_proxy_request b = .ok req →
      dispatch_proxy_request req session auth client = (.ok result, calls) →
      handle_proxy (some token) mgr now (some b) auth client =
        ((200, result), calls)) ∧
    (∀ (token : String) mgr now session ct fp up,
      mgr.validate_token token now = some session →
      session.permissions.contains "write" = false →
      handle_attachments (some token) mgr now ct fp up =
        (403, errBody "Write permission required for attachment upload"
                "UNAUTHORIZED")) ∧
    (∀ (token : String) mgr now session (fp : String × String) (msg : String),
      mgr.validate_token token now = some session →
      session.permissions.contains "write" = true →
      handle_attachments (some token) mgr now true (some fp) (.error msg) =
        (500, errBody msg "GRIST_ERROR")) := by
  refine ⟨fun _ _ _ _ _ => rfl, ?_, ?_, ?_, ?_, ?_, ?_, ?_⟩
  · intro token mgr now body auth client h
    simp [handle_proxy, h]
  · intro token mgr now session auth client h
    simp [handle_proxy, h]
  · intro token mgr now session b req e calls auth client hval hparse hdisp
    simp [handle_proxy, hval, hparse, hdisp]
  · intro token mgr now session b req e calls auth client hval hparse hdisp hcode
    simp [handle_proxy, hval, hparse, hdisp, hcode]
  · intro token mgr now session b req result calls auth client hval hparse hdisp
    simp [handle_proxy, hval, hparse, hdisp]
  · intro token mgr now session ct fp up hval hw
    have hmem : "write" ∉ session.permissions := by simpa using hw
    simp [handle_attachments, hval, hmem]
  · intro token mgr now session fp msg hval hw
    have hmem : "write" ∈ session.permissions := by simpa using hw
    simp [handle_attachments, hval, hmem]

/-- Claim C5 witness: concrete runs of both endpoints — the proxy
endpoint sends a GRIST_ERROR with status 400, the attachment endpoint
sends a GRIST_ERROR with status 500. -/
theorem proxy_status_by_code_witness :
    exMgr.validate_token "t" 0 = some ⟨"t", "doc", ["read"], "bot", 0, 300⟩ ∧
    parse_proxy_request [("method", Value.str "list_tables")] =
      .ok { method := .str "list_tables" } ∧
    dispatch_proxy_request { method := .str "list_tables" }
        ⟨"t", "doc", ["read"], "bot", 0, 300⟩ exAuth exClientBoom =
      (.error ⟨"boom", "GRIST_ERROR"⟩, [ClientCall.list_tables]) ∧
    handle_proxy (some "t") exMgr 0 (some [("method", Value.str "list_tables")])
        exAuth exClientBoom =
      ((400, errBody "boom" "GRIST_ERROR"), [ClientCall.list_tables]) ∧
    exMgrW.validate_token "w" 0 =
      some ⟨"w", "doc", ["read", "write"], "bot", 0, 300⟩ ∧
    handle_attachments (some "w") exMgrW 0 true (some ("f.pdf", "data"))
        (.error "boom") = (500, errBody "boom" "GRIST_ERROR") :=
  ⟨rfl, rfl, rfl,
   proxy_status_by_code.2.2.2.2.1 "t" exMgr 0
     ⟨"t", "doc", ["read"], "bot", 0, 300⟩
     [("method", Value.str "list_tables")] { method := .str "list_tables" }
     ⟨"boom", "GRIST_ERROR"⟩ [ClientCall.list_tables] exAuth exClientBoom
     rfl rfl rfl rfl,
   rfl,
   proxy_status_by_code.2.2.2.2.2.2.2 "w" exMgrW 0
     ⟨"w", "doc", ["read", "write"], "bot", 0, 300⟩ ("f.pdf", "data") "boom"
     rfl (by decide)⟩

/-- The last configured token entry whose token string is `t`. -/
def lastTokenEntry (ts : List Token) (t : String) : Option Token :=
  (ts.filter (fun e => e.token == t)).getLast?

lemma buildTokenMap_lookup (ts : List Token) (acc : List (String × Token))
    (t : String) :
    pyDictGet (ts.foldl (fun m e => pyDictInsert m e.token e) acc) t =
      (match lastTokenEntry ts t with
       | some e => some e
       | none => pyDictGet acc t) := by
  induction ts generalizing acc with
  | nil => simp [lastTokenEntry]
  | cons e ts ih =>
    simp only [List.foldl_cons]
    rw [ih]
    cases hl : lastTokenEntry ts t with
    | some x =>
      have hcons : lastTokenEntry (e :: ts) t = some x := by
        unfold lastTokenEntry at hl ⊢
        rw [List.filter_cons]
        split
        · cases hf : ts.filter (fun a => a.token == t) with
          | nil => rw [hf] at hl; simp at hl
          | cons y ys =>
            rw [hf] at hl
            rw [List.getLast?_cons_cons]
            exact hl
        · exact hl
      rw [hcons]
    | none =>
      by_cases he : (e.token == t) = true
      · have hcons : lastTokenEntry (e :: ts) t = some e := by
          unfold lastTokenEntry at hl ⊢
          rw [List.filter_cons, if_pos he]
          have hf : ts.filter (fun a => a.token == t) = [] :=
            List.getLast?_eq_none_iff.mp hl
          rw [hf]
          rfl
        rw [hcons]
        have het : e.token = t := by simpa using he
        rw [← het]
        exact pyDictGet_insert_self acc e.token e
      · have he' : (e.token == t) = false := by
          cases hb : e.token == t
          · rfl
          · exact absurd hb he
        have hcons : lastTokenEntry (e :: ts) t = none := by
          unfold lastTokenEntry at hl ⊢
          rw [List.filter_cons, if_neg (by simp [he'])]
          exact hl
        rw [hcons]
        have het : t ≠ e.token := by
          intro hx
          rw [hx] at he'
          simp at he'
        exact pyDictGet_insert_other acc e.token t e het

/-- Claim C10: building the `Authenticator` never fails on duplicate
token strings; the dict comprehension makes the later entry silently
overwrite the earlier one, so `authenticate` on a token string returns
the Agent built from the LAST configured entry carrying that string (and
the invalid-token error when no entry matches).  Concretely, with two
entries sharing token "T" named "first" and "second", authentication
returns the agent named "second" with the second entry's scope. -/
theorem authenticate_duplicate_tokens (cfg : Config) (t : String) :
    ((Authenticator.ofConfig cfg).authenticate t =
      (match lastTokenEntry cfg.tokens t with
       | some e => .ok ⟨t, e.name, e⟩
       | none => .error ⟨"Invalid token"⟩)) ∧
    ((Authenticator.ofConfig
        ⟨[], [⟨"T", "first", []⟩,
              ⟨"T", "second", [⟨"sales", ["read"]⟩]⟩]⟩).authenticate "T" =
      .ok ⟨"T", "second", ⟨"T", "second", [⟨"sales", ["read"]⟩]⟩⟩) := by
  constructor
  · unfold Authenticator.authenticate
    have hmap : (Authenticator.ofConfig cfg).token_map =
        cfg.tokens.foldl (fun m e => pyDictInsert m e.token e) [] := rfl
    rw [hmap, buildTokenMap_lookup cfg.tokens [] t]
    cases lastTokenEntry cfg.tokens t with
    | some e => rfl
    | none => rfl
  · rfl

end GristMcp
